import Mathlib

set_option maxHeartbeats 1000000

/-! Verification development for the distributor-report extraction engine
(`simple_data_processor.py`).  The Python code is shallowly embedded: a
pandas `DataFrame` becomes a list of column labels plus a grid of optional
string cells (every scalar is represented by its `str()` image), the four
extraction strategies become pure functions producing `Row` lists, and the
per-file loader (an IO concern) is represented by its outcome, an
`Except` value carried by each `FileInput`. -/

/-! ## String primitives (models of the Python `str` operations used) -/

/-- Model of Python `str.lower()` (ASCII, as used by the code). -/
def pyLower (s : String) : String := ⟨s.data.map Char.toLower⟩

/-- Model of Python `str.strip()`: drop whitespace from both ends. -/
def pyStrip (s : String) : String :=
  ⟨((s.data.dropWhile Char.isWhitespace).reverse.dropWhile Char.isWhitespace).reverse⟩

/-- Model of Python `c in s` for a single character `c`. -/
def hasChar (s : String) (c : Char) : Bool := s.data.any (fun x => x == c)

/-- Substring occurrence on character lists (`pat` occurs somewhere in the list). -/
def subOccurs (pat : List Char) : List Char → Bool
  | [] => pat.isPrefixOf []
  | c :: t => pat.isPrefixOf (c :: t) || subOccurs pat t

/-- Model of Python `pat in s` for strings. -/
def strContains (s pat : String) : Bool := subOccurs pat.data s.data

/-- Model of Python `str.isdigit()`: non-empty and all digits. -/
def pyIsDigit (s : String) : Bool := !s.data.isEmpty && s.data.all Char.isDigit

/-- Model of Python `s.replace(c, '')` for a one-character pattern. -/
def removeChar (s : String) (c : Char) : String := ⟨s.data.filter (fun x => x != c)⟩

/-- The code's recurring numeric test `s.replace('.','').replace('-','').isdigit()`. -/
def pyDigitsClean (s : String) : Bool := pyIsDigit (removeChar (removeChar s '.') '-')

/-- Numeric value of a digit list (most significant first). -/
def digitsToNat (l : List Char) : Nat := l.foldl (fun a c => a * 10 + (c.toNat - 48)) 0

/-- An exact decimal number `mant / 10 ^ exp`, the value of a parsed
numeric literal. -/
structure Dec where
  mant : Int
  exp : Nat
deriving DecidableEq

/-- Whether a decimal is strictly positive (`x > 0` on the parsed value). -/
def Dec.pos (d : Dec) : Bool := decide (0 < d.mant)

/-- Whether a decimal is strictly below the natural number `n`. -/
def Dec.ltNat (d : Dec) (n : Nat) : Bool := decide (d.mant < (n : Int) * (10 : Int) ^ d.exp)

/-- Model of Python `float(s)` on the plain decimal literals the processor
meets: optional sign, digits, optional fractional part.  The exact decimal
value stands in for the IEEE float; on such literals the two agree for
every comparison and truncation the code performs. -/
def pyFloat? (s : String) : Option Dec :=
  let t := (pyStrip s).data
  let neg : Bool := match t with
    | '-' :: _ => true
    | _ => false
  let u : List Char := match t with
    | '-' :: r => r
    | '+' :: r => r
    | _ => t
  let d1 := u.takeWhile Char.isDigit
  let r1 := u.dropWhile Char.isDigit
  match r1 with
  | [] =>
    if d1.isEmpty then none
    else some ⟨(if neg then -1 else 1) * (digitsToNat d1 : Int), 0⟩
  | '.' :: r2 =>
    let d2 := r2.takeWhile Char.isDigit
    let r3 := r2.dropWhile Char.isDigit
    if r3.isEmpty then
      if d1.isEmpty && d2.isEmpty then none
      else some ⟨(if neg then -1 else 1) * (digitsToNat (d1 ++ d2) : Int), d2.length⟩
    else none
  | _ => none

/-- Model of Python `int(x)` on a float: truncation toward zero. -/
def pyInt (d : Dec) : Int :=
  if 0 ≤ d.mant then ((d.mant.toNat / 10 ^ d.exp : Nat) : Int)
  else -(((-d.mant).toNat / 10 ^ d.exp : Nat) : Int)

/-! ## `get_distributor_name` -/

/-- Characters matched by the `[a-zA-Z0-9_]` class of the temp-prefix regex. -/
def wordChar (c : Char) : Bool := c.isAlphanum || c == '_'

/-- Model of `os.path.basename`: the part after the last slash. -/
def basename (s : String) : String :=
  ⟨(s.data.reverse.takeWhile (fun c => c != '/')).reverse⟩

/-- Model of `re.sub(r'^tmp[a-zA-Z0-9_]*', '', s)`: if the name starts with
`tmp`, remove it together with the following run of word characters. -/
def stripTmpPrefix (s : String) : String :=
  if ("tmp".data).isPrefixOf s.data then ⟨(s.data.drop 3).dropWhile wordChar⟩ else s

/-- Index of the last `.` in a character list, if any. -/
def lastDotIdx (l : List Char) : Option Nat :=
  match l.reverse.findIdx? (fun c => c == '.') with
  | none => none
  | some r => some (l.length - 1 - r)

/-- Model of `os.path.splitext` on a basename: split at the last dot provided
some non-dot character stands before it (leading dots never start an
extension). -/
def splitExt (s : String) : String × String :=
  let l := s.data
  let run := (l.takeWhile (fun c => c == '.')).length
  match lastDotIdx l with
  | none => (s, "")
  | some k => if run < k then (⟨l.take k⟩, ⟨l.drop k⟩) else (s, "")

/-- Whether `pat` occurs at position `k` of `l`. -/
def subAt (l pat : List Char) (k : Nat) : Bool := pat.isPrefixOf (l.drop k)

/-- Position of the match of `re.search(r'(.+) from (.+)', s)`: the greedy
first group ends at the last occurrence of `" from "` that leaves at least
one character on each side. -/
def lastFromIdx (l : List Char) : Option Nat :=
  ((List.range l.length).filter
    (fun k => subAt l (" from ".data) k && decide (1 ≤ k) && decide (k + 6 < l.length))).getLast?

/-- Embedding of `get_distributor_name` (simple_data_processor.py, lines 8-47). -/
def get_distributor_name (file_name : String) : String :=
  let fn := stripTmpPrefix (basename file_name)
  let stem := (splitExt fn).1
  let name1 :=
    if stem = "" then
      let ext := (splitExt fn).2
      if ext ≠ "" then "Distributor-" ++ (⟨ext.data.drop 1⟩ : String) else "Unknown-Distributor"
    else stem
  let name2 :=
    match lastFromIdx name1.data with
    | some k =>
      let sheet := pyStrip ⟨name1.data.take k⟩
      if sheet ≠ "" then sheet else name1
    | none => name1
  let cleaned :=
    pyStrip ⟨name2.data.filter (fun c => c.isAlphanum || c == ' ' || c == '-' || c == '_')⟩
  if cleaned.length < 3 then "Distributor-" ++ (if cleaned = "" then "Unknown" else cleaned)
  else cleaned

/-! ## The data grid -/

/-- A cell: `none` models a NaN/missing value, `some s` a scalar whose
`str()` image is `s`. -/
abbrev Cell := Option String

/-- A loaded pandas frame: column labels (the file's first line) and the
data grid below them. -/
structure DataFrame where
  cols : List String
  rows : List (List Cell)
deriving DecidableEq

/-- Row `i` of the grid (`df.iloc[i]`); out of range gives the empty row. -/
def dfRow (df : DataFrame) (i : Nat) : List Cell := df.rows.getD i []

/-- Cell at row `i`, column `j` (`df.iloc[i, j]`); out of range is missing. -/
def cellAt (df : DataFrame) (i j : Nat) : Cell := (dfRow df i).getD j none

/-- Model of `df.empty`: a frame with no rows or no columns. -/
def dfIsEmpty (df : DataFrame) : Bool := df.rows.isEmpty || df.cols.isEmpty

/-! ## `find_header_row` -/

/-- Join strings with a single space (Python `' '.join`). -/
def joinSpace : List String → String
  | [] => ""
  | [s] => s
  | s :: rest => s ++ " " ++ joinSpace rest

/-- The header test applied to one row: lower-case and strip every non-blank
cell, join with spaces, and look for the header word patterns
(simple_data_processor.py, lines 192-198). -/
def headerQual (row : List Cell) : Bool :=
  let txt := joinSpace (row.filterMap (fun c => c.map (fun s => pyStrip (pyLower s))))
  (strContains txt "customer" && strContains txt "name") ||
  (strContains txt "retailer" && strContains txt "name") ||
  (strContains txt "product" &&
    (["name", "description", "sku", "item"].any (fun x => strContains txt x)))

/-- The scanning loop of `find_header_row`: `fuel` counts the remaining
iterations of `for i in range(min(20, len(df)))`. -/
def headerSearch (df : DataFrame) : Nat → Nat → Option Nat
  | _, 0 => none
  | i, fuel + 1 =>
    if headerQual (dfRow df i) then some i else headerSearch df (i + 1) fuel

/-- Embedding of `find_header_row` (simple_data_processor.py, lines 180-201). -/
def find_header_row (df : DataFrame) : Option Nat :=
  headerSearch df 0 (min 20 df.rows.length)

/-! ## Extracted rows -/

/-- One extracted record: the dictionary built by every strategy, with the
always-present keys as fields and the conditional `City`/`State` keys as
options. -/
structure Row where
  customer : String
  product : String
  quantity : Int
  sourceFile : String
  distributor : String
  sheetName : String
  city : Option String
  state : Option String
deriving DecidableEq

/-- The shared city/state attachment pattern: a located column index, a
bounds check, a non-NaN check, then a strip and a placeholder filter. -/
def captureLoc (row : List Cell) (idx : Option Nat) (bad : List String) : Option String :=
  match idx with
  | none => none
  | some k =>
    if k < row.length then
      match row.getD k none with
      | some s =>
        let c := pyStrip s
        if c ≠ "" ∧ pyLower c ∉ bad then some c else none
      | none => none
    else none

/-! ## Strategy 1: `process_file_with_header` -/

/-- Column role indices inferred from the header row. -/
structure Roles where
  cIdx : Option Nat
  pIdx : Option Nat
  qIdx : Option Nat
  cityIdx : Option Nat
  stateIdx : Option Nat
deriving DecidableEq

/-- The header-to-role mapping loop (lines 229-246): an `elif` chain over
the header cells, later matches overwriting earlier ones per role. -/
def headerRoles (headers : List Cell) : Roles :=
  headers.enum.foldl (fun acc p =>
    match p.2 with
    | none => acc
    | some h =>
      let hl := pyLower h
      if strContains hl "customer" && strContains hl "name" then { acc with cIdx := some p.1 }
      else if strContains hl "retailer" && strContains hl "name" then { acc with cIdx := some p.1 }
      else if ["product", "description", "item"].any (fun t => strContains hl t) then
        { acc with pIdx := some p.1 }
      else if strContains hl "quantity" || strContains hl "qty" then { acc with qIdx := some p.1 }
      else if strContains hl "city" || (strContains hl "ship" && strContains hl "city") then
        { acc with cityIdx := some p.1 }
      else if strContains hl "state" || (strContains hl "ship" && strContains hl "state") then
        { acc with stateIdx := some p.1 }
      else acc) ⟨none, none, none, none, none⟩

/-- Separator-like tokens that make a data row skippable. -/
def sepLike : List String := ["", "-", "--", "---", "----"]

/-- Per-row body of the strategy-1 loop (lines 254-317); `none` models the
`continue` paths. -/
def headerRowExtract (roles : Roles) (fn sn : String) (row : List Cell) : Option Row :=
  let values := row.filterMap (fun c => c.map pyStrip)
  if values = [] ∨ ∀ v ∈ values, v ∈ sepLike then none
  else
    let customerRes : Option String :=
      match roles.cIdx with
      | some ci =>
        if ci < row.length then
          match row.getD ci none with
          | some s =>
            let c := pyStrip s
            if pyLower c ∈ ["customer name", "retailer name", "total", "grand total", ""] then none
            else some c
          | none => some "Unknown"
        else some "Unknown"
      | none => some "Unknown"
    match customerRes with
    | none => none
    | some customer =>
      let productRes : Option String :=
        match roles.pIdx with
        | some pj =>
          if pj < row.length then
            match row.getD pj none with
            | some s =>
              let p := pyStrip s
              if pyLower p ∈ ["product", "description", "item", "total", ""] then none
              else some p
            | none => some "Unknown Product"
          else some "Unknown Product"
        | none => some "Unknown Product"
      match productRes with
      | none => none
      | some product =>
        let quantity : Int :=
          match roles.qIdx with
          | some qi =>
            if qi < row.length then
              match row.getD qi none with
              | some s =>
                match pyFloat? (removeChar s ',') with
                | some v => if v.pos then pyInt v else 1
                | none => 1
              | none => 1
            else 1
          | none => 1
        if customer = "Unknown" ∨ product = "Unknown Product" then none
        else some { customer := customer, product := product, quantity := quantity,
                    sourceFile := fn, distributor := get_distributor_name fn, sheetName := sn,
                    city := captureLoc row roles.cityIdx ["city", "ship city", "n/a", "-"],
                    state := captureLoc row roles.stateIdx ["state", "ship state", "n/a", "-"] }

/-- Embedding of `process_file_with_header` (lines 203-323). -/
def process_file_with_header (df : DataFrame) (h : Nat) (fn sn : String) : List Row :=
  let headers := dfRow df h
  let roles := headerRoles headers
  if roles.cIdx = none ∧ roles.pIdx = none then []
  else (df.rows.drop (h + 1)).filterMap (headerRowExtract roles fn sn)

/-! ## Strategy 2: `process_customer_by_sku` -/

/-- Row text used when locating the `Customer Name` row (line 343): lowered,
not stripped, joined with spaces. -/
def skuRowText (row : List Cell) : String :=
  joinSpace (row.filterMap (fun c => c.map pyLower))

/-- The `Customer Name` row search over the first `min(15, len(df))` rows. -/
def skuHeaderSearch (df : DataFrame) : Nat → Nat → Option Nat
  | _, 0 => none
  | i, fuel + 1 =>
    if strContains (skuRowText (dfRow df i)) "customer" &&
       strContains (skuRowText (dfRow df i)) "name"
    then some i else skuHeaderSearch df (i + 1) fuel

/-- First row whose text contains both `customer` and `name` (lines 341-346). -/
def skuHeaderIdx (df : DataFrame) : Option Nat :=
  skuHeaderSearch df 0 (min 15 df.rows.length)

/-- Column detection over the located header row (lines 361-379), an `elif`
chain with later matches overwriting earlier ones. -/
def skuCols (df : DataFrame) (hi : Nat) : Option Nat × Option Nat × Option Nat :=
  (List.range df.cols.length).foldl (fun acc i =>
    match cellAt df hi i with
    | none => acc
    | some v =>
      let vl := pyLower v
      if strContains vl "customer" && strContains vl "name" then (some i, acc.2.1, acc.2.2)
      else if strContains vl "ship" && strContains vl "city" then (acc.1, some i, acc.2.2)
      else if strContains vl "city" then (acc.1, some i, acc.2.2)
      else if strContains vl "ship" && strContains vl "state" then (acc.1, acc.2.1, some i)
      else if strContains vl "state" then (acc.1, acc.2.1, some i)
      else acc) (none, none, none)

/-- Per-row body of the strategy-2 loop (lines 388-442): one output row per
asterisk-bearing cell outside the customer column. -/
def skuRowExtract (custIdx : Nat) (cityIdx stIdx : Option Nat) (fn sn : String)
    (row : List Cell) : List Row :=
  if ∀ c ∈ row, c = none then []
  else if custIdx < row.length then
    match row.getD custIdx none with
    | none => []
    | some s =>
      let customer := pyStrip s
      if pyLower customer ∈ ["customer name", "total", "grand total", ""] ∨
         pyDigitsClean customer = true then []
      else
        row.enum.filterMap (fun p =>
          if p.1 = custIdx then none
          else match p.2 with
            | none => none
            | some v =>
              let vs := pyStrip v
              if hasChar vs '*' = true ∧ 5 < vs.length then
                some { customer := customer, product := vs, quantity := 1,
                       sourceFile := fn, distributor := get_distributor_name fn, sheetName := sn,
                       city := captureLoc row cityIdx ["city", "ship city", "n/a", "-"],
                       state := captureLoc row stIdx ["state", "ship state", "n/a", "-"] }
              else none)
  else []

/-- Embedding of `process_customer_by_sku` (lines 325-448). -/
def process_customer_by_sku (df : DataFrame) (fn sn : String) : List Row :=
  match skuHeaderIdx df with
  | none => []
  | some hi =>
    match (skuCols df hi).1 with
    | none => []
    | some custIdx =>
      (df.rows.drop (hi + 1)).flatMap
        (skuRowExtract custIdx (skuCols df hi).2.1 (skuCols df hi).2.2 fn sn)

/-! ## Strategy 3: `extract_asterisk_products` -/

/-- City/state column inference (lines 478-485): a row-major pass over the
first `min(10, len(df))` rows, later assignments overwriting earlier ones. -/
def cityStateCols (df : DataFrame) : Option Nat × Option Nat :=
  ((List.range (min 10 df.rows.length)).flatMap
      (fun i => (List.range df.cols.length).map (fun j => (i, j)))).foldl
    (fun acc p =>
      match cellAt df p.1 p.2 with
      | none => acc
      | some s =>
        let v := pyLower s
        if strContains v "city" || (strContains v "ship" && strContains v "city") then
          (some p.2, acc.2)
        else if strContains v "state" || (strContains v "ship" && strContains v "state") then
          (acc.1, some p.2)
        else acc) (none, none)

/-- The candidate-customer value filters (lines 497-499): length, not
numeric, no header/footer keyword. -/
def candOK (vs : String) : Bool :=
  decide (3 < vs.length) && !(pyDigitsClean vs) &&
  !(["total", "---", "customer", "product", "sum", "qty"].any
      (fun x => strContains (pyLower vs) x))

/-- Whether cell `(k, j)` carries a `customer`/`retailer` marker (lines 504-507). -/
def markerCell (df : DataFrame) (k j : Nat) : Bool :=
  match cellAt df k j with
  | some s => strContains (pyLower s) "customer" || strContains (pyLower s) "retailer"
  | none => false

/-- The column check of line 503: `for k in range(min(5, i))`, i.e. the
first `min(5, i)` rows of the grid. -/
def likelyCustomer (df : DataFrame) (i j : Nat) : Bool :=
  (List.range (min 5 i)).any (fun k => markerCell df k j)

/-- The per-row customer scan (lines 488-524): walk the cells of row `i`
left to right, record the first one passing the filters whose column is
marked, together with the row's captured city/state, then stop. -/
def rowScanAux (df : DataFrame) (ccol scol : Option Nat) (i : Nat) :
    Nat → List Cell → Option (String × Option String × Option String)
  | _, [] => none
  | j, c :: rest =>
    match c with
    | none => rowScanAux df ccol scol i (j + 1) rest
    | some v =>
      let vs := pyStrip v
      if candOK vs && likelyCustomer df i j then
        some (vs, captureLoc (dfRow df i) ccol ["city", "ship city", "n/a", "-"],
                  captureLoc (dfRow df i) scol ["state", "ship state", "n/a", "-"])
      else rowScanAux df ccol scol i (j + 1) rest

/-- The record made for row `i` by the customer pass, if any. -/
def rowScan (df : DataFrame) (i : Nat) : Option (String × Option String × Option String) :=
  rowScanAux df (cityStateCols df).1 (cityStateCols df).2 i 0 (dfRow df i)

/-- `customer_by_row` as a lookup: the customer recorded for row `i`. -/
def customerByRow (df : DataFrame) (i : Nat) : Option String :=
  (rowScan df i).map (fun t => t.1)

/-- `city_by_row` as a lookup. -/
def cityByRow (df : DataFrame) (i : Nat) : Option String :=
  (rowScan df i).bind (fun t => t.2.1)

/-- `state_by_row` as a lookup. -/
def stateByRow (df : DataFrame) (i : Nat) : Option String :=
  (rowScan df i).bind (fun t => t.2.2)

/-- The nearby-customer loop (lines 544-550): offsets in the given order,
above before below, returning the recorded value or `"Unknown"`. -/
def searchNearby (cmap : Nat → Option String) (i : Nat) : List Nat → String
  | [] => "Unknown"
  | off :: rest =>
    if off ≤ i ∧ (cmap (i - off)).isSome = true then (cmap (i - off)).getD "Unknown"
    else if (cmap (i + off)).isSome then (cmap (i + off)).getD "Unknown"
    else searchNearby cmap i rest

/-- Customer resolution for a product cell in row `i` (lines 539-550). -/
def resolveCustomer (cmap : Nat → Option String) (i : Nat) : String :=
  let c := (cmap i).getD "Unknown"
  if c = "Unknown" then searchNearby cmap i [1, 2, 3] else c

/-- The city/state backfill loop (lines 570-576 and 584-590): same-customer
rows at offsets 1..3, above before below. -/
def bfLoop (m cmap : Nat → Option String) (customer : String) (i : Nat) :
    List Nat → Option String
  | [] => none
  | off :: rest =>
    if off ≤ i ∧ (m (i - off)).isSome = true ∧ cmap (i - off) = some customer then m (i - off)
    else if (m (i + off)).isSome = true ∧ cmap (i + off) = some customer then m (i + off)
    else bfLoop m cmap customer i rest

/-- City/state attachment for an emitted product row (lines 564-590). -/
def backfill (m cmap : Nat → Option String) (customer : String) (i : Nat) : Option String :=
  match m i with
  | some c => some c
  | none => bfLoop m cmap customer i [1, 2, 3]

/-- Emission for one asterisk-bearing cell value `vs` in row `i`
(lines 538-592): resolve a customer, drop the cell when it stays
`"Unknown"`, otherwise build the output row with backfilled city/state. -/
def emitAsterisk (cmap citymap statemap : Nat → Option String) (fn sn : String)
    (i : Nat) (vs : String) : Option Row :=
  let customer := resolveCustomer cmap i
  if customer = "Unknown" then none
  else some { customer := customer, product := vs, quantity := 1,
              sourceFile := fn, distributor := get_distributor_name fn, sheetName := sn,
              city := backfill citymap cmap customer i,
              state := backfill statemap cmap customer i }

/-- Embedding of `extract_asterisk_products` (lines 450-598). -/
def extract_asterisk_products (df : DataFrame) (fn sn : String) : List Row :=
  df.rows.enum.flatMap (fun p =>
    p.2.filterMap (fun c =>
      match c with
      | none => none
      | some v =>
        let vs := pyStrip v
        if hasChar vs '*' = true ∧ 5 < vs.length then
          emitAsterisk (customerByRow df) (cityByRow df) (stateByRow df) fn sn p.1 vs
        else none))

/-! ## Strategy 4: `extract_basic` -/

/-- Python truthiness of the optional column-name variables (`None` and the
empty string are falsy). -/
def isTruthy (o : Option String) : Bool :=
  match o with
  | none => false
  | some s => s ≠ ""

/-- `row.get(col)`: value of the labelled column in this row. -/
def rowGet (df : DataFrame) (row : List Cell) (col : String) : Option String :=
  match df.cols.findIdx? (fun c => c == col) with
  | none => none
  | some k => row.getD k none

/-- `col_var and pd.notna(row.get(col_var))` combined: the cell value when
the column variable is truthy and the cell non-missing. -/
def getIfTruthy (df : DataFrame) (row : List Cell) (o : Option String) : Option String :=
  match o with
  | none => none
  | some c => if c ≠ "" then rowGet df row c else none

/-- The customer/city/state column-name loop of `extract_basic`
(lines 617-627): an `elif` chain over the column labels, later matches
overwriting earlier ones. -/
def colNameTriples (df : DataFrame) : Option String × Option String × Option String :=
  df.cols.foldl (fun acc col =>
    let n := pyLower col
    if (strContains n "retailer" && strContains n "name") ||
       (strContains n "customer" && strContains n "name") then (some col, acc.2.1, acc.2.2)
    else if strContains n "city" || (strContains n "ship" && strContains n "city") then
      (acc.1, some col, acc.2.2)
    else if strContains n "state" || (strContains n "ship" && strContains n "state") then
      (acc.1, acc.2.1, some col)
    else acc) (none, none, none)

/-- `df[col].dropna().astype(str).tolist()`: the non-missing values of a
labelled column. -/
def colValues (df : DataFrame) (col : String) : List String :=
  match df.cols.findIdx? (fun c => c == col) with
  | none => []
  | some k => df.rows.filterMap (fun row => row.getD k none)

/-- The first fifteen sample values of a column. -/
def samples15 (df : DataFrame) (col : String) : List String := (colValues df col).take 15

/-- Product-column selection of `extract_basic` (lines 630-670): asterisk
samples first, then name matching with a non-numeric check, then the
`Retailer Name` fallbacks. -/
def productCol (df : DataFrame) (customerCol : Option String) : Option String :=
  let p1 := df.cols.find? (fun col => (samples15 df col).any (fun v => hasChar v '*'))
  let p2 :=
    if isTruthy p1 then p1
    else df.cols.find? (fun col =>
      (["product", "item", "description", "sku", "mer/item"].any
        (fun t => strContains (pyLower col) t)) &&
      !((samples15 df col).all (fun v => decide (v = "") || pyDigitsClean v)))
  if !(isTruthy p2) ∧ isTruthy customerCol ∧ "Retailer Name" ∈ df.cols then
    if "Order Number" ∈ df.cols then some "Order Number"
    else df.cols.find? (fun col =>
      decide (some col ≠ customerCol) &&
      (samples15 df col).any (fun v => decide (3 < v.length) && !(pyDigitsClean v)))
  else p2

/-- The asterisk override scan of lines 704-712: first other column of this
row holding an asterisk-bearing value longer than five characters. -/
def asteriskOverrideAux (df : DataFrame) (prodCol : Option String) (row : List Cell)
    (base : String) : List String → String
  | [] => base
  | col :: rest =>
    if some col ≠ prodCol ∧ (rowGet df row col).isSome = true then
      match rowGet df row col with
      | some s =>
        let v := pyStrip s
        if hasChar v '*' = true ∧ 5 < v.length then v
        else asteriskOverrideAux df prodCol row base rest
      | none => asteriskOverrideAux df prodCol row base rest
    else asteriskOverrideAux df prodCol row base rest

/-- The quantity scan of lines 726-736: first other column whose value
parses to a number strictly between 0 and 1000. -/
def scanQuantityAux (df : DataFrame) (customerCol prodCol : Option String)
    (row : List Cell) : List String → Int
  | [] => 1
  | col :: rest =>
    if some col ≠ prodCol ∧ some col ≠ customerCol ∧ (rowGet df row col).isSome = true then
      match rowGet df row col with
      | some s =>
        match pyFloat? (removeChar (pyStrip s) ',') with
        | some v =>
          if v.pos ∧ v.ltNat 1000 = true then pyInt v
          else scanQuantityAux df customerCol prodCol row rest
        | none => scanQuantityAux df customerCol prodCol row rest
      | none => scanQuantityAux df customerCol prodCol row rest
    else scanQuantityAux df customerCol prodCol row rest

/-- The city/state attachment of `extract_basic` (lines 751-762), working by
column label rather than index. -/
def locField (df : DataFrame) (row : List Cell) (colOpt : Option String)
    (bad : List String) : Option String :=
  match getIfTruthy df row colOpt with
  | some s =>
    let c := pyStrip s
    if c ≠ "" ∧ pyLower c ∉ bad then some c else none
  | none => none

/-- Per-row body of the `extract_basic` loop (lines 682-764); `none` models
the `continue` paths and the final `customer != 'Unknown'` guard. -/
def basicRow (df : DataFrame) (customerCol cityCol stateCol prodCol : Option String)
    (defaultProduct fn sn : String) (row : List Cell) : Option Row :=
  let customerRes : Option String :=
    match getIfTruthy df row customerCol with
    | some s =>
      let c := pyStrip s
      if pyLower c ∈ ["retailer name", "customer name", "total", "grand total", ""] then none
      else some c
    | none => some "Unknown"
  match customerRes with
  | none => none
  | some customer =>
    let productRes : Option String :=
      match getIfTruthy df row prodCol with
      | some s =>
        let pv := pyStrip s
        if pyLower pv ∈ ["product", "item", "description", "mer/item", "total", ""] then none
        else
          let base := if !(pyDigitsClean pv) then pv else defaultProduct
          some (asteriskOverrideAux df prodCol row base df.cols)
      | none => some defaultProduct
    match productRes with
    | none => none
    | some product =>
      let quantity : Int :=
        if "Order Total" ∈ df.cols ∧ (rowGet df row "Order Total").isSome = true then
          match rowGet df row "Order Total" with
          | some s =>
            match pyFloat? (pyStrip (removeChar (removeChar s '$') ',')) with
            | some v => max 1 (pyInt v)
            | none => 1
          | none => 1
        else scanQuantityAux df customerCol prodCol row df.cols
      if customer = "Unknown" then none
      else some { customer := customer, product := product, quantity := quantity,
                  sourceFile := fn, distributor := get_distributor_name fn, sheetName := sn,
                  city := locField df row cityCol ["city", "ship city", "n/a", "-"],
                  state := locField df row stateCol ["state", "ship state", "n/a", "-"] }

/-- `drop_duplicates(subset=['Customer Name', 'Product'])`: keep the first
row for each (customer, product) pair. -/
def dedupPairAux (seen : List (String × String)) : List Row → List Row
  | [] => []
  | r :: rest =>
    if (r.customer, r.product) ∈ seen then dedupPairAux seen rest
    else r :: dedupPairAux ((r.customer, r.product) :: seen) rest

/-- Embedding of `extract_basic` (lines 600-777). -/
def extract_basic (df : DataFrame) (fn sn : String) : List Row :=
  let t := colNameTriples df
  let customerCol := t.1
  if !(isTruthy customerCol) then []
  else
    let prodCol := productCol df customerCol
    let defaultProduct :=
      if strContains (pyLower sn) "hotpot" then "Hotpot Queen Product" else "Distributor Product"
    let raw := df.rows.filterMap (basicRow df customerCol t.2.1 t.2.2 prodCol defaultProduct fn sn)
    if raw.isEmpty then [] else dedupPairAux [] raw

/-! ## The strategy cascade and the batch aggregator -/

/-- The APPROACH-2 trigger (line 126): sheet name containing
`BY CUSTOMER BY SKU`, or a column label containing both `customer` and `sku`. -/
def byCustomerSkuTrigger (sn : String) (df : DataFrame) : Bool :=
  strContains sn "BY CUSTOMER BY SKU" ||
  df.cols.any (fun c => strContains (pyLower c) "customer" && strContains (pyLower c) "sku")

/-- Approaches 3 and 4 of the cascade: marker scan, then positional fallback. -/
def afterSku (df : DataFrame) (fn sn : String) : List Row :=
  if extract_asterisk_products df fn sn ≠ [] then extract_asterisk_products df fn sn
  else extract_basic df fn sn

/-- Approaches 2-4 of the cascade. -/
def afterHeader (df : DataFrame) (fn sn : String) : List Row :=
  if byCustomerSkuTrigger sn df then
    if process_customer_by_sku df fn sn ≠ [] then process_customer_by_sku df fn sn
    else afterSku df fn sn
  else afterSku df fn sn

/-- The per-grid strategy cascade of `parse_distributor_files`
(lines 113-149): first approach returning a non-empty row set wins. -/
def processGrid (df : DataFrame) (fn sn : String) : List Row :=
  match find_header_row df with
  | some h =>
    if process_file_with_header df h fn sn ≠ [] then process_file_with_header df h fn sn
    else afterHeader df fn sn
  | none => afterHeader df fn sn

/-- One input file: its name and the outcome of the tabular loader (an IO
concern, represented by its result: a loaded frame with its sheet label, or
a load error such as a decode failure). -/
structure FileInput where
  name : String
  load : Except String (DataFrame × String)

/-- Per-file processing (lines 65-155): a load error or an empty frame
contributes nothing; otherwise the cascade runs.  The surrounding
`try/except ... continue` makes every failure per-file. -/
def processFile (f : FileInput) : List Row :=
  match f.load with
  | Except.error _ => []
  | Except.ok (df, sn) => if dfIsEmpty df then [] else processGrid df f.name sn

/-- The six dictionary keys every strategy writes unconditionally, in
insertion order. -/
def baseRowCols : List String :=
  ["Customer Name", "Product", "Quantity", "Source File", "Distributor", "Sheet Name"]

/-- The dictionary keys of one emitted row, in insertion order: the six base
keys, then `City` and `State` when attached. -/
def rowKeys (r : Row) : List String :=
  baseRowCols ++
  (if r.city.isSome then ["City"] else []) ++
  (if r.state.isSome then ["State"] else [])

/-- Keep the first occurrence of each string (column-union order). -/
def dedupFirstAux (seen : List String) : List String → List String
  | [] => []
  | c :: rest =>
    if c ∈ seen then dedupFirstAux seen rest
    else c :: dedupFirstAux (c :: seen) rest

/-- First-appearance union of a list of strings. -/
def dedupFirst (l : List String) : List String := dedupFirstAux [] l

/-- Columns of the `pd.DataFrame(rows)` built from one file's row
dictionaries. -/
def dfColumnsOfRows (rs : List Row) : List String := dedupFirst (rs.flatMap rowKeys)

/-- Columns of `pd.concat(all_data)`: first-appearance union of the per-file
column lists. -/
def combinedColumns (all : List (List Row)) : List String :=
  dedupFirst ((all.map dfColumnsOfRows).flatten)

/-- The combined report: its column labels, and its rows each carrying the
stamped (month, year, quarter) triple broadcast by lines 170-172. -/
structure Report where
  columns : List String
  rows : List (Row × Nat × Nat × String)
deriving DecidableEq

/-- Embedding of `parse_distributor_files` (lines 49-178).  The wall clock
is injected as `now = (month, year)`; the loader outcomes ride on the
`FileInput`s.  An empty `all_data` returns the bare `pd.DataFrame()`. -/
def parse_distributor_files (now : Nat × Nat) (files : List FileInput) : Report :=
  let all_data := (files.map processFile).filter (fun l => !l.isEmpty)
  if all_data.isEmpty then ⟨[], []⟩
  else
    let m := now.1
    let y := now.2
    let quarter := "Q" ++ toString ((m - 1) / 3 + 1) ++ " " ++ toString y
    ⟨combinedColumns all_data ++ ["Month", "Year", "Quarter"],
     all_data.flatten.map (fun r => (r, m, y, quarter))⟩

/-! ## Claim-side notions -/

/-- Formalisation of the claim's nearest-row rule: the recorded customer of
the nearest row within 3 rows above or below `i`, checking offsets in
increasing distance with above before below at equal distance. -/
def nearestRecorded (cmap : Nat → Option String) (i : Nat) : Option String :=
  if 1 ≤ i ∧ (cmap (i - 1)).isSome = true then cmap (i - 1)
  else if (cmap (i + 1)).isSome then cmap (i + 1)
  else if 2 ≤ i ∧ (cmap (i - 2)).isSome = true then cmap (i - 2)
  else if (cmap (i + 2)).isSome then cmap (i + 2)
  else if 3 ≤ i ∧ (cmap (i - 3)).isSome = true then cmap (i - 3)
  else if (cmap (i + 3)).isSome then cmap (i + 3)
  else none

/-- Formalisation of the claim's first-success rule: the first non-empty
row set in the given order, or the empty row set when all are empty. -/
def firstNonEmpty : List (List Row) → List Row
  | [] => []
  | l :: rest => if l ≠ [] then l else firstNonEmpty rest

/-- The header-driven strategy's attempt on a grid: its output when a
header row is located, and no rows at all when the strategy does not apply
(the gate is part of the attempt). -/
def headerAttempt (df : DataFrame) (fn sn : String) : List Row :=
  match find_header_row df with
  | some h => process_file_with_header df h fn sn
  | none => []

/-- The customer-by-SKU strategy's attempt on a grid: its output when its
trigger condition holds, and no rows at all otherwise. -/
def skuAttempt (df : DataFrame) (fn sn : String) : List Row :=
  if byCustomerSkuTrigger sn df then process_customer_by_sku df fn sn else []

/-- The nine columns the interface guarantees on a non-empty report. -/
def guaranteedCols : List String := baseRowCols ++ ["Month", "Year", "Quarter"]

/-- The column/stamp contract of a combined report: membership in its column
list is exactly the nine guaranteed columns plus `City`/`State` when some
row carries them, and the (month, year, quarter) stamp is identical on
every row. -/
def reportColumnsSpec (rep : Report) : Prop :=
  (∀ c, c ∈ rep.columns ↔
     (c ∈ guaranteedCols ∨
      (c = "City" ∧ ∃ p ∈ rep.rows, p.1.city.isSome = true) ∨
      (c = "State" ∧ ∃ p ∈ rep.rows, p.1.state.isSome = true))) ∧
  (∀ p ∈ rep.rows, ∀ q ∈ rep.rows, p.2 = q.2)

/-! ## Concrete inputs used by the witnesses and counterexamples -/

/-- A grid with an in-data header row and a fractional quantity cell. -/
def gC1 : DataFrame :=
  ⟨["A", "B", "C"],
   [[some "Customer Name", some "Product", some "Qty"],
    [some "Acme Store", some "Widget Pro", some "0.5"]]⟩

/-- A file whose loader succeeded with grid `gC1`. -/
def fC1 : FileInput := ⟨"sales.csv", Except.ok (gC1, "CSV")⟩

/-- A file whose loader failed (for example with a decode error). -/
def fBad : FileInput := ⟨"bad.csv", Except.error "decode error"⟩

/-- A grid satisfying both the header-row heuristic and the marker-based
heuristic. -/
def gC2 : DataFrame :=
  ⟨["A", "B"],
   [[some "Customer Name", some "Product Description"],
    [some "Acme Store", some "Widget* Blue"]]⟩

/-- A grid whose `customer`/`retailer` marker sits in row 0 while the
candidate customer value sits in row 10, far below the marker. -/
def gC4 : DataFrame :=
  ⟨["X"],
   [[some "Customer"], [none], [none], [none], [none], [none], [none], [none], [none], [none],
    [some "Acme Corporation"]]⟩

/-- A grid whose only recorded customer value is the literal string
`Unknown`, one row above an asterisk-bearing cell. -/
def gC7 : DataFrame :=
  ⟨["X"], [[some "Retailer"], [some "Unknown"], [some "*Total Widget*"]]⟩

/-! ## Claims -/

/-- C1.  The claim asserts every row of a non-empty CombinedReport has
`Quantity >= 1`.  The code violates it: on `gC1` the header-driven strategy
parses the quantity cell `"0.5"`, passes the `qty_val > 0` check, and
`int()`-truncates it to `0`, emitting a report whose only row has
`Quantity = 0`. -/
theorem claim1_quantity_zero_emitted :
    (parse_distributor_files (4, 2026) [fC1]).rows.map (fun p => p.1.quantity) = [0] ∧
    ∃ p ∈ (parse_distributor_files (4, 2026) [fC1]).rows, p.1.quantity < 1 := by
  constructor <;> decide

/-- C3 counterexample.  The claim maps `"tmpAB12Foo Report from Acme.xlsx"`
to `"Acme"`; the code maps it to `"Report"` (the `(.+) from (.+)` rule
prefers the group before `from`, and the temp-prefix strip already consumed
`AB12Foo`). -/
theorem claim3_distributor_name_counterexample :
    get_distributor_name "tmpAB12Foo Report from Acme.xlsx" = "Report" ∧
    get_distributor_name "tmpAB12Foo Report from Acme.xlsx" ≠ "Acme" := by
  constructor <;> decide

/-- C3 amended.  `get_distributor_name` maps
`"tmpAB12Foo Report from Acme.xlsx"` to `"Report"` (the part before `from`,
after the prefix strip consumed `AB12Foo`); maps `"tmpXYZreport.csv"` to
`"csv"` (the prefix strip consumes the whole stem `XYZreport`, the leading
`.csv` remainder splits as a stem with empty extension and cleans to
`csv`); and maps `"tmp123.xlsx"` to `"xlsx"` for the same reason — not to a
generated placeholder label. -/
theorem claim3_distributor_name_amended :
    get_distributor_name "tmpAB12Foo Report from Acme.xlsx" = "Report" ∧
    get_distributor_name "tmpXYZreport.csv" = "csv" ∧
    get_distributor_name "tmp123.xlsx" = "xlsx" := by
  refine ⟨?_, ?_, ?_⟩ <;> decide

/-- Peeling one attempt off the first-success selector. -/
lemma firstNonEmpty_cons (a : List Row) (rest : List (List Row)) :
    firstNonEmpty (a :: rest) = if a ≠ [] then a else firstNonEmpty rest := rfl

/-- A single attempt supplies its own output, empty or not. -/
lemma firstNonEmpty_singleton (a : List Row) : firstNonEmpty [a] = a := by
  rw [firstNonEmpty_cons]
  split_ifs with h
  · rfl
  · exact (not_not.mp h).symm

/-- Approaches 3-4 of the cascade are the first-success selector over the
marker-based and positional attempts, in that order. -/
lemma afterSku_eq (df : DataFrame) (fn sn : String) :
    afterSku df fn sn =
      firstNonEmpty [extract_asterisk_products df fn sn, extract_basic df fn sn] := by
  rw [firstNonEmpty_cons, firstNonEmpty_singleton]
  rfl

/-- Approaches 2-4 of the cascade are the first-success selector over the
customer-by-SKU, marker-based and positional attempts, in that order. -/
lemma afterHeader_eq (df : DataFrame) (fn sn : String) :
    afterHeader df fn sn =
      firstNonEmpty [skuAttempt df fn sn, extract_asterisk_products df fn sn,
                     extract_basic df fn sn] := by
  rw [firstNonEmpty_cons, ← afterSku_eq]
  by_cases ht : byCustomerSkuTrigger sn df
  · by_cases h2 : process_customer_by_sku df fn sn = []
    · simp [afterHeader, skuAttempt, ht, h2]
    · simp [afterHeader, skuAttempt, ht, h2]
  · simp [afterHeader, skuAttempt, ht]

/-- C2.  The cascade tries the four strategies in the fixed order
header-driven, customer-by-SKU, marker-based, positional fallback (an
attempt whose gate — a located header row, the customer-by-SKU trigger —
fails yields no rows), and the first attempt returning a non-empty row set
supplies the file's entire contribution: `processGrid` equals the
first-success selector over the four attempts in exactly that order, so
later strategies never run into the result and nothing is merged across
strategies.  In particular, a grid satisfying both the header-driven
heuristic and the marker-based heuristic contributes exactly the
header-driven strategy's output. -/
theorem claim2_first_success_cascade :
    ∀ (df : DataFrame) (fn sn : String),
      processGrid df fn sn =
        firstNonEmpty [headerAttempt df fn sn, skuAttempt df fn sn,
                       extract_asterisk_products df fn sn, extract_basic df fn sn] ∧
      (∀ h, find_header_row df = some h →
        process_file_with_header df h fn sn ≠ [] →
        extract_asterisk_products df fn sn ≠ [] →
        processGrid df fn sn = process_file_with_header df h fn sn) := by
  intro df fn sn
  constructor
  · rw [firstNonEmpty_cons, ← afterHeader_eq]
    cases hf : find_header_row df with
    | none => simp [processGrid, hf, headerAttempt]
    | some h =>
      by_cases h1 : process_file_with_header df h fn sn = []
      · simp [processGrid, hf, headerAttempt, h1]
      · simp [processGrid, hf, headerAttempt, h1]
  · intro h hfind hne _
    simp only [processGrid, hfind, if_pos hne]

/-- C2 witness: on `gC2` both the header heuristic and the marker heuristic
produce rows, and the cascade returns exactly the header-driven output. -/
theorem claim2_first_success_cascade_witness :
    processGrid gC2 "f.xlsx" "Sheet1" = process_file_with_header gC2 0 "f.xlsx" "Sheet1" :=
  (claim2_first_success_cascade gC2 "f.xlsx" "Sheet1").2 0 (by decide) (by decide) (by decide)

/-- Every row surviving `dedupPairAux` has a (customer, product) key outside
the starting `seen` set. -/
lemma dedupPairAux_key_notin :
    ∀ (l : List Row) (seen : List (String × String)) (r : Row),
      r ∈ dedupPairAux seen l → (r.customer, r.product) ∉ seen := by
  intro l
  induction l with
  | nil => intro seen r h; cases h
  | cons a rest ih =>
    intro seen r h
    unfold dedupPairAux at h
    by_cases ha : (a.customer, a.product) ∈ seen
    · rw [if_pos ha] at h
      exact ih seen r h
    · rw [if_neg ha] at h
      rcases List.mem_cons.mp h with h | h
      · subst h; exact ha
      · intro hr
        exact ih _ r h (List.mem_cons_of_mem _ hr)

/-- `dedupPairAux` never keeps two rows with the same (customer, product)
pair. -/
lemma dedupPairAux_pairwise :
    ∀ (l : List Row) (seen : List (String × String)),
      (dedupPairAux seen l).Pairwise
        (fun a b => ¬(a.customer = b.customer ∧ a.product = b.product)) := by
  intro l
  induction l with
  | nil => intro seen; exact List.Pairwise.nil
  | cons a rest ih =>
    intro seen
    unfold dedupPairAux
    by_cases ha : (a.customer, a.product) ∈ seen
    · rw [if_pos ha]; exact ih seen
    · rw [if_neg ha]
      refine List.Pairwise.cons ?_ (ih _)
      intro b hb hab
      have := dedupPairAux_key_notin rest _ b hb
      apply this
      rw [← hab.1, ← hab.2]
      exact List.mem_cons_self _ _

/-- C8.  The positional-fallback strategy never returns two rows with an
identical (Customer Name, Product) pair: its result is deduplicated by that
pair within the single file's extraction pass. -/
theorem claim8_basic_dedup :
    ∀ (df : DataFrame) (fn sn : String),
      (extract_basic df fn sn).Pairwise
        (fun a b => ¬(a.customer = b.customer ∧ a.product = b.product)) := by
  intro df fn sn
  simp only [extract_basic]
  split_ifs <;> first
    | exact List.Pairwise.nil
    | exact dedupPairAux_pairwise _ _

/-- `all_data` is empty exactly when no file contributed rows. -/
lemma filter_processFile_eq_nil (files : List FileInput)
    (hall : ∀ f ∈ files, processFile f = []) :
    (files.map processFile).filter (fun l => !l.isEmpty) = [] := by
  rw [List.filter_eq_nil_iff]
  intro l hl
  rcases List.mem_map.mp hl with ⟨f, hf, rfl⟩
  rw [hall f hf]
  decide

/-- C5.  No failure of one file aborts the batch: a file whose load failed
contributes nothing and the surrounding files are processed as if it were
absent; and when every file yields no rows the result is the empty report,
not an error. -/
theorem claim5_per_file_isolation :
    (∀ (now : Nat × Nat) (pre post : List FileInput) (f : FileInput) (e : String),
      f.load = Except.error e →
      parse_distributor_files now (pre ++ f :: post) =
        parse_distributor_files now (pre ++ post)) ∧
    (∀ (now : Nat × Nat) (files : List FileInput),
      (∀ f ∈ files, processFile f = []) →
      parse_distributor_files now files = ⟨[], []⟩) := by
  constructor
  · intro now pre post f e hload
    have hf : processFile f = [] := by
      unfold processFile
      rw [hload]
    simp only [parse_distributor_files, List.map_append, List.map_cons, List.filter_append,
      List.filter_cons, hf]
    simp
  · intro now files hall
    simp only [parse_distributor_files, filter_processFile_eq_nil files hall]
    rfl

/-- C5 witness: a batch of three files whose second load fails with a decode
error yields exactly the result of the batch without it, and a batch with
no successful file yields the empty report. -/
theorem claim5_per_file_isolation_witness :
    parse_distributor_files (7, 2025) [fC1, fBad, fC1] =
      parse_distributor_files (7, 2025) [fC1, fC1] ∧
    parse_distributor_files (7, 2025) [fBad] = ⟨[], []⟩ :=
  ⟨claim5_per_file_isolation.1 (7, 2025) [fC1] [fC1] fBad "decode error" rfl,
   claim5_per_file_isolation.2 (7, 2025) [fBad] (by decide)⟩

/-- C10.  When no file yields rows, `parse_distributor_files` returns the
bare `pd.DataFrame()`: zero rows, zero columns, and in particular no
`Month`, `Year` or `Quarter` column is stamped onto it. -/
theorem claim10_total_failure_empty :
    ∀ (now : Nat × Nat) (files : List FileInput),
      (∀ f ∈ files, processFile f = []) →
      (parse_distributor_files now files).columns = [] ∧
      (parse_distributor_files now files).rows = [] ∧
      "Month" ∉ (parse_distributor_files now files).columns ∧
      "Year" ∉ (parse_distributor_files now files).columns ∧
      "Quarter" ∉ (parse_distributor_files now files).columns := by
  intro now files hall
  have h : parse_distributor_files now files = ⟨[], []⟩ := by
    simp only [parse_distributor_files, filter_processFile_eq_nil files hall]
    rfl
  rw [h]
  exact ⟨rfl, rfl, by simp, by simp, by simp⟩

/-- C10 witness at a concrete batch whose only file fails to load. -/
theorem claim10_total_failure_empty_witness :
    (parse_distributor_files (1, 2024) [fBad]).columns = [] ∧
    (parse_distributor_files (1, 2024) [fBad]).rows = [] ∧
    "Month" ∉ (parse_distributor_files (1, 2024) [fBad]).columns ∧
    "Year" ∉ (parse_distributor_files (1, 2024) [fBad]).columns ∧
    "Quarter" ∉ (parse_distributor_files (1, 2024) [fBad]).columns :=
  claim10_total_failure_empty (1, 2024) [fBad] (by decide)

/-- Characterisation of the header scanning loop: it returns `some i`
exactly for the first qualifying index in the scanned window. -/
lemma headerSearch_some_iff (df : DataFrame) :
    ∀ (fuel s i : Nat),
      headerSearch df s fuel = some i ↔
        (s ≤ i ∧ i < s + fuel ∧ headerQual (dfRow df i) = true ∧
         ∀ k, s ≤ k → k < i → headerQual (dfRow df k) = false) := by
  intro fuel
  induction fuel with
  | zero =>
    intro s i
    constructor
    · intro h; cases h
    · rintro ⟨h1, h2, -, -⟩; omega
  | succ n ih =>
    intro s i
    simp only [headerSearch]
    by_cases hq : headerQual (dfRow df s) = true
    · rw [if_pos hq]
      constructor
      · intro h
        injection h with h
        subst h
        exact ⟨Nat.le_refl s, by omega, hq, fun k hk1 hk2 => by omega⟩
      · rintro ⟨h1, h2, h3, h4⟩
        by_cases hsi : s = i
        · rw [hsi]
        · have hlt : s < i := by omega
          have := h4 s (Nat.le_refl s) hlt
          rw [hq] at this
          cases this
    · rw [if_neg hq]
      have hq' : headerQual (dfRow df s) = false := by
        revert hq; cases headerQual (dfRow df s) <;> simp
      rw [ih (s + 1) i]
      constructor
      · rintro ⟨h1, h2, h3, h4⟩
        refine ⟨by omega, by omega, h3, ?_⟩
        intro k hk1 hk2
        by_cases hks : k = s
        · rw [hks]; exact hq'
        · exact h4 k (by omega) hk2
      · rintro ⟨h1, h2, h3, h4⟩
        have hsi : s ≠ i := by
          intro h
          rw [← h] at h3
          rw [hq'] at h3
          cases h3
        exact ⟨by omega, by omega, h3, fun k hk1 hk2 => h4 k (by omega) hk2⟩

/-- Characterisation of the header scanning loop returning nothing: no row
in the scanned window qualifies. -/
lemma headerSearch_none_iff (df : DataFrame) :
    ∀ (fuel s : Nat),
      headerSearch df s fuel = none ↔
        ∀ k, s ≤ k → k < s + fuel → headerQual (dfRow df k) = false := by
  intro fuel
  induction fuel with
  | zero =>
    intro s
    constructor
    · intro _ k hk1 hk2; omega
    · intro _; rfl
  | succ n ih =>
    intro s
    simp only [headerSearch]
    by_cases hq : headerQual (dfRow df s) = true
    · rw [if_pos hq]
      constructor
      · intro h; cases h
      · intro h
        have := h s (Nat.le_refl s) (by omega)
        rw [hq] at this
        cases this
    · rw [if_neg hq]
      have hq' : headerQual (dfRow df s) = false := by
        revert hq; cases headerQual (dfRow df s) <;> simp
      rw [ih (s + 1)]
      constructor
      · intro h k hk1 hk2
        by_cases hks : k = s
        · rw [hks]; exact hq'
        · exact h k (by omega) (by omega)
      · intro h k hk1 hk2
        exact h k (by omega) (by omega)

/-- C6.  `find_header_row` examines at most the first 20 rows and returns
the index of the first row whose lowered, space-joined non-blank cell text
contains (`customer` and `name`), or (`retailer` and `name`), or
(`product` and one of `name`/`description`/`sku`/`item`) — the test
embedded as `headerQual`; it returns `none` when no row among the first 20
qualifies. -/
theorem claim6_find_header_row_spec :
    ∀ (df : DataFrame) (i : Nat),
      (find_header_row df = some i ↔
        (i < min 20 df.rows.length ∧ headerQual (dfRow df i) = true ∧
         ∀ k, k < i → headerQual (dfRow df k) = false)) ∧
      (find_header_row df = none ↔
        ∀ k, k < min 20 df.rows.length → headerQual (dfRow df k) = false) := by
  intro df i
  constructor
  · rw [find_header_row, headerSearch_some_iff]
    constructor
    · rintro ⟨-, h2, h3, h4⟩
      exact ⟨by omega, h3, fun k hk => h4 k (Nat.zero_le k) hk⟩
    · rintro ⟨h1, h2, h3⟩
      exact ⟨Nat.zero_le i, by omega, h2, fun k _ hk => h3 k hk⟩
  · rw [find_header_row, headerSearch_none_iff]
    constructor
    · intro h k hk
      exact h k (Nat.zero_le k) (by omega)
    · intro h k _ hk
      exact h k (by omega)

/-- Any customer recorded by the per-row scan comes from a cell of the row
that passes the value filters and whose column carries a marker among the
first `min(5, i)` rows of the grid. -/
lemma rowScanAux_only_if (df : DataFrame) (ccol scol : Option Nat) (i : Nat) :
    ∀ (l : List Cell) (j : Nat) (v : String) (cv sv : Option String),
      rowScanAux df ccol scol i j l = some (v, cv, sv) →
      ∃ d s, l.getD d none = some s ∧ v = pyStrip s ∧ candOK (pyStrip s) = true ∧
        likelyCustomer df i (j + d) = true := by
  intro l
  induction l with
  | nil => intro j v cv sv h; cases h
  | cons c rest ih =>
    intro j v cv sv h
    match c with
    | none =>
      simp only [rowScanAux] at h
      obtain ⟨d, s, hd, hv, hok, hlik⟩ := ih (j + 1) v cv sv h
      refine ⟨d + 1, s, ?_, hv, hok, ?_⟩
      · simpa using hd
      · have : j + (d + 1) = j + 1 + d := by omega
        rw [this]
        exact hlik
    | some w =>
      simp only [rowScanAux] at h
      by_cases hc : (candOK (pyStrip w) && likelyCustomer df i j) = true
      · rw [if_pos hc] at h
        rw [Bool.and_eq_true] at hc
        simp only [Option.some.injEq, Prod.mk.injEq] at h
        exact ⟨0, w, rfl, h.1.symm, hc.1, by simpa using hc.2⟩
      · rw [if_neg hc] at h
        obtain ⟨d, s, hd, hv, hok, hlik⟩ := ih (j + 1) v cv sv h
        refine ⟨d + 1, s, ?_, hv, hok, ?_⟩
        · simpa using hd
        · have : j + (d + 1) = j + 1 + d := by omega
          rw [this]
          exact hlik

/-- C4 counterexample.  On `gC4` the value `"Acme Corporation"` at row 10,
column 0 is recorded as that row's candidate customer although every cell
in the 5 rows immediately above row 10 (rows 5-9) is blank: the code scans
`range(min(5, i))`, i.e. the first five rows of the grid, where the
`"Customer"` marker of row 0 sits — not the rows immediately above. -/
theorem claim4_marker_scan_counterexample :
    customerByRow gC4 10 = some "Acme Corporation" ∧
    (∀ k, k < 10 → 5 ≤ k → cellAt gC4 k 0 = none) ∧
    dfRow gC4 10 = [some "Acme Corporation"] := by
  refine ⟨by decide, by decide, by decide⟩

/-- C4 amended.  A cell value at row `i`, column `j` is recorded as that
row's candidate customer only if, among the first `min(5, i)` rows of the
grid (rows `0` to `min(5, i) - 1`, which coincide with the rows immediately
above only when `i ≤ 5`), some cell in the same column `j` contains
`customer` or `retailer` (case-insensitive), and the stripped value itself
passes the length (> 3), non-numeric, and non-keyword filters. -/
theorem claim4_marker_scan_amended :
    ∀ (df : DataFrame) (i : Nat) (v : String),
      customerByRow df i = some v →
      ∃ j s, cellAt df i j = some s ∧ v = pyStrip s ∧ candOK (pyStrip s) = true ∧
        likelyCustomer df i j = true := by
  intro df i v h
  simp only [customerByRow, rowScan, Option.map_eq_some'] at h
  obtain ⟨⟨w, cv, sv⟩, hscan, hv⟩ := h
  obtain ⟨d, s, hd, hw, hok, hlik⟩ :=
    rowScanAux_only_if df (cityStateCols df).1 (cityStateCols df).2 i (dfRow df i) 0 w cv sv hscan
  refine ⟨d, s, hd, ?_, hok, by simpa using hlik⟩
  rw [← hv]
  exact hw

/-- C4 witness: the amended only-if condition instantiated on `gC4`. -/
theorem claim4_marker_scan_amended_witness :
    customerByRow gC4 10 = some "Acme Corporation" ∧
    ∃ j s, cellAt gC4 10 j = some s ∧ "Acme Corporation" = pyStrip s ∧
      candOK (pyStrip s) = true ∧ likelyCustomer gC4 10 j = true :=
  ⟨by decide, claim4_marker_scan_amended gC4 10 "Acme Corporation" (by decide)⟩

/-- The code's nearby-customer loop computes exactly the claim's
nearest-recorded-row value (or `"Unknown"` when none exists within 3). -/
lemma searchNearby_eq_nearest (cmap : Nat → Option String) (i : Nat) :
    searchNearby cmap i [1, 2, 3] = (nearestRecorded cmap i).getD "Unknown" := by
  simp only [searchNearby, nearestRecorded]
  split_ifs <;> simp_all

/-- A row with no recorded customer has no recorded city or state either:
the scan records all three together. -/
lemma rowScan_loc_none (df : DataFrame) (i : Nat) (h : customerByRow df i = none) :
    cityByRow df i = none ∧ stateByRow df i = none := by
  simp only [customerByRow, Option.map_eq_none'] at h
  simp [cityByRow, stateByRow, h]

/-- Any value produced by the backfill loop comes from a row at one of the
given offsets (above preferred) whose recorded customer matches. -/
lemma bfLoop_mem (m cmap : Nat → Option String) (customer : String) (i : Nat) :
    ∀ (offs : List Nat) (c : String),
      bfLoop m cmap customer i offs = some c →
      ∃ off ∈ offs,
        ((off ≤ i ∧ m (i - off) = some c ∧ cmap (i - off) = some customer) ∨
         (m (i + off) = some c ∧ cmap (i + off) = some customer)) := by
  intro offs
  induction offs with
  | nil => intro c h; cases h
  | cons off rest ih =>
    intro c h
    unfold bfLoop at h
    by_cases h1 : off ≤ i ∧ (m (i - off)).isSome = true ∧ cmap (i - off) = some customer
    · rw [if_pos h1] at h
      exact ⟨off, List.mem_cons_self _ _, Or.inl ⟨h1.1, h, h1.2.2⟩⟩
    · rw [if_neg h1] at h
      by_cases h2 : (m (i + off)).isSome = true ∧ cmap (i + off) = some customer
      · rw [if_pos h2] at h
        exact ⟨off, List.mem_cons_self _ _, Or.inr ⟨h, h2.2⟩⟩
      · rw [if_neg h2] at h
        obtain ⟨o, ho, hc⟩ := ih c h
        exact ⟨o, List.mem_cons_of_mem _ ho, hc⟩

/-- Unfolding of the per-cell emission. -/
lemma emitAsterisk_eq (cmap citymap statemap : Nat → Option String) (fn sn : String)
    (i : Nat) (vs : String) :
    emitAsterisk cmap citymap statemap fn sn i vs =
      if resolveCustomer cmap i = "Unknown" then none
      else some { customer := resolveCustomer cmap i, product := vs, quantity := 1,
                  sourceFile := fn, distributor := get_distributor_name fn, sheetName := sn,
                  city := backfill citymap cmap (resolveCustomer cmap i) i,
                  state := backfill statemap cmap (resolveCustomer cmap i) i } := rfl

/-- C7 counterexample.  On `gC7` the asterisk-bearing cell at row 2 has no
recorded customer for its own row, while row 1 — within 3 rows — does have
a recorded customer (the literal cell value `"Unknown"`); the claim then
promises an output row, but the strategy emits nothing because the resolved
value collides with the `'Unknown'` sentinel. -/
theorem claim7_unknown_customer_counterexample :
    extract_asterisk_products gC7 "report.xlsx" "Sheet1" = [] ∧
    customerByRow gC7 2 = none ∧
    customerByRow gC7 1 = some "Unknown" ∧
    cellAt gC7 2 0 = some "*Total Widget*" ∧
    hasChar (pyStrip "*Total Widget*") '*' = true ∧
    5 < (pyStrip "*Total Widget*").length := by
  refine ⟨by decide, by decide, by decide, by decide, by decide, by decide⟩

/-- C7 amended.  For an asterisk-bearing cell value `vs` in a row `i` with
no recorded customer: if no row within 3 rows (above or below) has a
recorded customer the cell produces no output row; if the nearest recorded
customer (increasing distance, above before below) is the literal string
`"Unknown"` the cell also produces no output row; otherwise the cell is
attached to that nearest recorded customer, and the resulting row's
city/state are backfilled only from a row within the same ±3 window whose
recorded customer is the same. -/
theorem claim7_nearest_attach_amended :
    ∀ (df : DataFrame) (fn sn : String) (i : Nat) (vs : String),
      customerByRow df i = none →
      ((nearestRecorded (customerByRow df) i = none →
          emitAsterisk (customerByRow df) (cityByRow df) (stateByRow df) fn sn i vs = none) ∧
       (nearestRecorded (customerByRow df) i = some "Unknown" →
          emitAsterisk (customerByRow df) (cityByRow df) (stateByRow df) fn sn i vs = none) ∧
       (∀ v, nearestRecorded (customerByRow df) i = some v → v ≠ "Unknown" →
          ∃ r, emitAsterisk (customerByRow df) (cityByRow df) (stateByRow df) fn sn i vs =
                 some r ∧
            r.customer = v ∧ r.product = vs ∧
            (∀ c, r.city = some c → ∃ off ∈ ([1, 2, 3] : List Nat),
              ((off ≤ i ∧ cityByRow df (i - off) = some c ∧
                  customerByRow df (i - off) = some v) ∨
               (cityByRow df (i + off) = some c ∧ customerByRow df (i + off) = some v))) ∧
            (∀ st, r.state = some st → ∃ off ∈ ([1, 2, 3] : List Nat),
              ((off ≤ i ∧ stateByRow df (i - off) = some st ∧
                  customerByRow df (i - off) = some v) ∨
               (stateByRow df (i + off) = some st ∧
                  customerByRow df (i + off) = some v))))) := by
  intro df fn sn i vs h
  have hres : resolveCustomer (customerByRow df) i =
      (nearestRecorded (customerByRow df) i).getD "Unknown" := by
    unfold resolveCustomer
    rw [h]
    simp only [Option.getD_none, if_true]
    exact searchNearby_eq_nearest _ i
  refine ⟨?_, ?_, ?_⟩
  · intro hn
    rw [emitAsterisk_eq, hres, hn]
    simp
  · intro hn
    rw [emitAsterisk_eq, hres, hn]
    simp
  · intro v hv hvne
    have hcv : resolveCustomer (customerByRow df) i = v := by
      rw [hres, hv]
      rfl
    rw [emitAsterisk_eq, hcv, if_neg hvne]
    refine ⟨_, rfl, rfl, rfl, ?_, ?_⟩
    · intro c hc
      have hcity : cityByRow df i = none := (rowScan_loc_none df i h).1
      unfold backfill at hc
      rw [hcity] at hc
      exact bfLoop_mem _ _ _ _ _ c hc
    · intro st hst
      have hstate : stateByRow df i = none := (rowScan_loc_none df i h).2
      unfold backfill at hst
      rw [hstate] at hst
      exact bfLoop_mem _ _ _ _ _ st hst

/-- C7 witness: on `gC2` the asterisk cell value in row 0 has no recorded
customer of its own and attaches to the customer recorded for row 1. -/
theorem claim7_nearest_attach_amended_witness :
    customerByRow gC2 0 = none ∧
    nearestRecorded (customerByRow gC2) 0 = some "Acme Store" ∧
    ∃ r, emitAsterisk (customerByRow gC2) (cityByRow gC2) (stateByRow gC2)
           "f.xlsx" "Sheet1" 0 "Widget* Blue" = some r ∧
         r.customer = "Acme Store" := by
  refine ⟨by decide, by decide, ?_⟩
  obtain ⟨r, he, hc, -, -, -⟩ :=
    (claim7_nearest_attach_amended gC2 "f.xlsx" "Sheet1" 0 "Widget* Blue" (by decide)).2.2
      "Acme Store" (by decide) (by decide)
  exact ⟨r, he, hc⟩

/-- Membership in the first-appearance deduplication. -/
lemma mem_dedupFirstAux :
    ∀ (l seen : List String) (x : String),
      x ∈ dedupFirstAux seen l ↔ x ∈ l ∧ x ∉ seen := by
  intro l
  induction l with
  | nil => intro seen x; simp [dedupFirstAux]
  | cons c rest ih =>
    intro seen x
    unfold dedupFirstAux
    by_cases hc : c ∈ seen
    · rw [if_pos hc, ih]
      simp only [List.mem_cons]
      constructor
      · rintro ⟨h1, h2⟩
        exact ⟨Or.inr h1, h2⟩
      · rintro ⟨h1 | h1, h2⟩
        · subst h1; exact absurd hc h2
        · exact ⟨h1, h2⟩
    · rw [if_neg hc]
      simp only [List.mem_cons, ih]
      constructor
      · rintro (rfl | ⟨h1, h2⟩)
        · exact ⟨Or.inl rfl, hc⟩
        · exact ⟨Or.inr h1, fun hx => h2 (Or.inr hx)⟩
      · rintro ⟨rfl | h1, h2⟩
        · exact Or.inl rfl
        · by_cases hx : x = c
          · exact Or.inl hx
          · refine Or.inr ⟨h1, fun hmem => ?_⟩
            rcases hmem with h | h
            · exact hx h
            · exact h2 h

/-- `dedupFirst` keeps exactly the members of its input. -/
lemma mem_dedupFirst (l : List String) (x : String) : x ∈ dedupFirst l ↔ x ∈ l := by
  unfold dedupFirst
  rw [mem_dedupFirstAux]
  simp

/-- The keys of one row dictionary: the six base keys, plus `City`/`State`
when the row carries them. -/
lemma mem_rowKeys (c : String) (r : Row) :
    c ∈ rowKeys r ↔
      c ∈ baseRowCols ∨ (c = "City" ∧ r.city.isSome = true) ∨
      (c = "State" ∧ r.state.isSome = true) := by
  unfold rowKeys
  by_cases h1 : r.city.isSome = true <;> by_cases h2 : r.state.isSome = true <;>
    simp [h1, h2]

/-- Membership in the concatenated column union. -/
lemma mem_combinedColumns (all : List (List Row)) (c : String) :
    c ∈ combinedColumns all ↔ ∃ rs ∈ all, ∃ r ∈ rs, c ∈ rowKeys r := by
  unfold combinedColumns
  rw [mem_dedupFirst, List.mem_flatten]
  constructor
  · rintro ⟨l, hl, hc⟩
    rcases List.mem_map.mp hl with ⟨rs, hrs, rfl⟩
    unfold dfColumnsOfRows at hc
    rw [mem_dedupFirst, List.mem_flatMap] at hc
    obtain ⟨r, hr, hcr⟩ := hc
    exact ⟨rs, hrs, r, hr, hcr⟩
  · rintro ⟨rs, hrs, r, hr, hcr⟩
    refine ⟨dfColumnsOfRows rs, List.mem_map_of_mem _ hrs, ?_⟩
    unfold dfColumnsOfRows
    rw [mem_dedupFirst, List.mem_flatMap]
    exact ⟨r, hr, hcr⟩

/-- C9.  Every non-empty report returned by `parse_distributor_files` has
exactly the columns Customer Name, Product, Quantity, Source File,
Distributor, Sheet Name, Month, Year, Quarter guaranteed present, with the
(Month, Year, Quarter) stamp identical on every row of the run; the City and
State columns are present exactly when at least one extracted row of the
batch carried a city or state value. -/
theorem claim9_report_columns :
    ∀ (now : Nat × Nat) (files : List FileInput),
      (parse_distributor_files now files).rows ≠ [] →
      reportColumnsSpec (parse_distributor_files now files) := by
  intro now files hne
  by_cases hall : ((files.map processFile).filter (fun l => !l.isEmpty)).isEmpty = true
  · exfalso
    apply hne
    simp [parse_distributor_files, hall]
  · have hrep : parse_distributor_files now files =
        ⟨combinedColumns ((files.map processFile).filter (fun l => !l.isEmpty)) ++
           ["Month", "Year", "Quarter"],
         ((files.map processFile).filter (fun l => !l.isEmpty)).flatten.map
           (fun r => (r, now.1, now.2,
             "Q" ++ toString ((now.1 - 1) / 3 + 1) ++ " " ++ toString now.2))⟩ := by
      simp only [parse_distributor_files]
      rw [if_neg hall]
    rw [hrep] at hne ⊢
    unfold reportColumnsSpec guaranteedCols
    constructor
    · intro c
      constructor
      · intro hc
        rcases List.mem_append.mp hc with hc | hc
        · rw [mem_combinedColumns] at hc
          obtain ⟨rs, hrs, r, hr, hcr⟩ := hc
          rw [mem_rowKeys] at hcr
          rcases hcr with hb | ⟨rfl, hcity⟩ | ⟨rfl, hstate⟩
          · exact Or.inl (List.mem_append.mpr (Or.inl hb))
          · exact Or.inr (Or.inl ⟨rfl,
              ⟨(r, now.1, now.2, _),
               List.mem_map_of_mem _ (List.mem_flatten.mpr ⟨rs, hrs, hr⟩), hcity⟩⟩)
          · exact Or.inr (Or.inr ⟨rfl,
              ⟨(r, now.1, now.2, _),
               List.mem_map_of_mem _ (List.mem_flatten.mpr ⟨rs, hrs, hr⟩), hstate⟩⟩)
        · exact Or.inl (List.mem_append.mpr (Or.inr hc))
      · intro hc
        rcases hc with hc | ⟨rfl, p, hp, hcity⟩ | ⟨rfl, p, hp, hstate⟩
        · rcases List.mem_append.mp hc with hb | hmyq
          · have hflat :
                ((files.map processFile).filter (fun l => !l.isEmpty)).flatten ≠ [] := by
              intro h0
              apply hne
              rw [h0]
              rfl
            obtain ⟨r0, hr0⟩ := List.exists_mem_of_ne_nil _ hflat
            obtain ⟨rs, hrs, hr⟩ := List.mem_flatten.mp hr0
            refine List.mem_append.mpr (Or.inl ?_)
            rw [mem_combinedColumns]
            exact ⟨rs, hrs, r0, hr, (mem_rowKeys c r0).mpr (Or.inl hb)⟩
          · exact List.mem_append.mpr (Or.inr hmyq)
        · obtain ⟨r, hrmem, hreq⟩ := List.mem_map.mp hp
          obtain ⟨rs, hrs, hr⟩ := List.mem_flatten.mp hrmem
          refine List.mem_append.mpr (Or.inl ?_)
          rw [mem_combinedColumns]
          refine ⟨rs, hrs, r, hr, (mem_rowKeys _ r).mpr (Or.inr (Or.inl ⟨rfl, ?_⟩))⟩
          rw [← hreq] at hcity
          exact hcity
        · obtain ⟨r, hrmem, hreq⟩ := List.mem_map.mp hp
          obtain ⟨rs, hrs, hr⟩ := List.mem_flatten.mp hrmem
          refine List.mem_append.mpr (Or.inl ?_)
          rw [mem_combinedColumns]
          refine ⟨rs, hrs, r, hr, (mem_rowKeys _ r).mpr (Or.inr (Or.inr ⟨rfl, ?_⟩))⟩
          rw [← hreq] at hstate
          exact hstate
    · intro p hp q hq
      obtain ⟨r1, -, h1⟩ := List.mem_map.mp hp
      obtain ⟨r2, -, h2⟩ := List.mem_map.mp hq
      rw [← h1, ← h2]

/-- C9 witness: the column/stamp contract holds on the concrete non-empty
report built from `fC1`. -/
theorem claim9_report_columns_witness :
    (parse_distributor_files (4, 2026) [fC1]).rows ≠ [] ∧
    reportColumnsSpec (parse_distributor_files (4, 2026) [fC1]) :=
  ⟨by decide, claim9_report_columns (4, 2026) [fC1] (by decide)⟩
